import Mathlib

/-!
Verification of the payment-event ledger and idempotent webhook processor of
questmapping/stripebuttons.

The embedding translates the TypeScript source:
  * src/lib/products.ts                      — product catalog
  * src/lib/db.ts                            — `sql` helper and the SQL schema
    (purchase_events / user_points tables created by initializeDbSchema)
  * src/app/api/webhooks/stripe/route.ts     — webhook handler (POST),
    recordPurchaseEvent, updateUserPoints
  * src/app/api/checkout_sessions/route.ts   — checkout-session creation (POST)
  * src/app/api/log-cancellation/route.ts    — cancellation logging (POST)

The PostgreSQL tables become Lean lists; SQL statements become explicit
list-manipulating functions that also model the schema constraints that can
make a statement fail (NOT NULL on seller_id, UNIQUE on stripe_session_id)
and storage unavailability.  JavaScript `undefined`/`null` become `Option`,
JS truthiness on strings is modelled explicitly (`jsTruthy`), and the pg
driver's behaviour of binding an `undefined` parameter as SQL NULL is
modelled by `Option`-typed query parameters.
-/

/-! ## Product catalog (src/lib/products.ts) -/

structure Product where
  id : String
  name : String
  price : Int
  points : Int
deriving DecidableEq

def products : List Product :=
  [ { id := "prod_20euro", name := "Product 20 Euro", price := 20, points := 10 },
    { id := "prod_35euro", name := "Product 35 Euro", price := 35, points := 20 },
    { id := "prod_50euro", name := "Product 50 Euro", price := 50, points := 30 } ]

def getProductById (id : String) : Option Product :=
  products.find? (fun p => p.id == id)

/-! ## JavaScript semantics helpers -/

/-- JS truthiness of a `string | undefined | null` value: `undefined`, `null`
and the empty string are falsy. -/
def jsTruthy : Option String → Bool
  | none => false
  | some s => !(s == "")

/-- JS `a || b` on `string | undefined` values (left operand kept when truthy). -/
def jsOr (a b : Option String) : Option String :=
  if jsTruthy a then a else b

/-- JS `a || b` where the right operand is a string literal; yields a string. -/
def jsOrStr (a : Option String) (b : String) : String :=
  match a with
  | some s => if s == "" then b else s
  | none => b

/-- Decimal value of a digit string. -/
def digitsToNat (ds : List Char) : Nat :=
  ds.foldl (fun a c => 10 * a + (c.toNat - 48)) 0

/-- JS `parseInt(s, 10)`: skip leading whitespace, optional sign, then the
longest digit prefix; `NaN` (modelled as `none`) when no digit is found. -/
def parseIntJS (s : String) : Option Int :=
  let cs := s.toList.dropWhile (fun c => c.isWhitespace)
  let signed : Int × List Char :=
    match cs with
    | '-' :: t => (-1, t)
    | '+' :: t => (1, t)
    | t => (1, t)
  let ds := signed.2.takeWhile (fun c => c.isDigit)
  if ds.isEmpty then none
  else some (signed.1 * Int.ofNat (digitsToNat ds))

/-! ## Event store rows (schema from initializeDbSchema in src/lib/db.ts) -/

/-- The JSONB `details` payloads constructed by the routes. -/
inductive EventDetails where
  /-- `{ error: 'Email or productId not found in session metadata' }` -/
  | missingMetadata (error : String)
  /-- `{ error: 'Product ID ... not found.' }` -/
  | productNotFound (error : String)
  /-- success details: `{ product_name, price_paid, payment_intent }` -/
  | success (product_name : String) (price_paid : Int) (payment_intent : Option String)
  /-- failed-payment details: reason, payment_intent_id, latest_charge_id, status, amount, currency -/
  | failed (reason : Option String) (payment_intent_id : String)
      (latest_charge_id : Option String) (pi_status : String) (amount : Int) (currency : String)
  /-- cancellation details: `{ product_name, price_paid, cancelled_at, reason }` -/
  | cancelled (product_name : String) (price_paid : Int) (reason : String)
deriving DecidableEq

/-- One row of `purchase_events`.
`id SERIAL PRIMARY KEY`, `timestamp TIMESTAMPTZ DEFAULT CURRENT_TIMESTAMP`,
`email VARCHAR NOT NULL`, `product_id VARCHAR` (nullable),
`stripe_session_id VARCHAR UNIQUE`, `status VARCHAR NOT NULL`,
`seller_id INTEGER NOT NULL DEFAULT 0`, `points_awarded INTEGER` (nullable),
`details JSONB` (nullable). -/
structure PurchaseRow where
  id : Nat
  timestamp : Nat
  email : String
  productId : Option String
  stripeSessionId : String
  status : String
  sellerId : Int
  pointsAwarded : Option Int
  details : Option EventDetails
deriving DecidableEq

/-- One row of `user_points`: `email VARCHAR PRIMARY KEY`,
`total_points INTEGER DEFAULT 0 NOT NULL`, `last_updated TIMESTAMPTZ`. -/
structure UserPointsRow where
  email : String
  totalPoints : Int
  lastUpdated : Nat
deriving DecidableEq

/-- The database: both tables, the `purchase_events` SERIAL counter, and a
flag telling whether the storage backend is reachable (a failed connection
makes every SQL statement raise). -/
structure DBState where
  events : List PurchaseRow
  points : List UserPointsRow
  nextId : Nat
  storageUp : Bool
deriving DecidableEq

def emptyDB (storageUp : Bool) : DBState :=
  { events := [], points := [], nextId := 1, storageUp := storageUp }

def hasKey (db : DBState) (k : String) : Bool :=
  db.events.any (fun r => r.stripeSessionId == k)

/-! ## recordPurchaseEvent (webhook route, lines 15-43) -/

/-- The argument object of `recordPurchaseEvent`.  Optional TS fields are
`Option`; an absent field is bound as SQL NULL by the pg driver.
`seller_id = none` covers both an absent field (bound as NULL) and a `NaN`
from `parseInt` (rejected by Postgres), both of which make the statement
raise — relevant because `seller_id` is declared NOT NULL. -/
structure RecordData where
  email : String
  productId : Option String
  seller_id : Option Int
  stripeSessionId : String
  status : String
  pointsAwarded : Option Int
  details : Option EventDetails
deriving DecidableEq

/-- The DO UPDATE arm of the upsert: only status, details, product_id,
seller_id and points_awarded are listed in the SET clause; id, email and
timestamp keep the values of the conflicting row. -/
def overwriteRow (d : RecordData) (sv : Int) (r : PurchaseRow) : PurchaseRow :=
  { r with status := d.status, details := d.details, productId := d.productId,
           sellerId := sv, pointsAwarded := d.pointsAwarded }

/-- The freshly inserted row: `id` from the SERIAL counter, `timestamp` from
`CURRENT_TIMESTAMP`, the rest from the VALUES list. -/
def insertRow (db : DBState) (now : Nat) (d : RecordData) (sv : Int) : PurchaseRow :=
  { id := db.nextId, timestamp := now, email := d.email, productId := d.productId,
    stripeSessionId := d.stripeSessionId, status := d.status, sellerId := sv,
    pointsAwarded := d.pointsAwarded, details := d.details }

/-- The `INSERT ... ON CONFLICT (stripe_session_id) DO UPDATE` statement of
`recordPurchaseEvent`.  `none` is a raised SQL error: storage unreachable, or
a NULL/NaN `seller_id` violating the NOT NULL constraint (the DO UPDATE arm
sets `seller_id = EXCLUDED.seller_id`, so the update path violates it too). -/
def purchaseUpsertSql (db : DBState) (now : Nat) (d : RecordData) : Option DBState :=
  if !db.storageUp then none
  else
    match d.seller_id with
    | none => none
    | some sv =>
      if hasKey db d.stripeSessionId then
        some { db with
          events := db.events.map (fun r =>
            if r.stripeSessionId == d.stripeSessionId then overwriteRow d sv r else r) }
      else
        some { db with
          events := db.events ++ [insertRow db now d sv],
          nextId := db.nextId + 1 }

/-- `recordPurchaseEvent`: runs the upsert and catches any database error
(the catch block only logs; the error is swallowed and the caller proceeds). -/
def recordPurchaseEvent (db : DBState) (now : Nat) (d : RecordData) : DBState :=
  match purchaseUpsertSql db now d with
  | some db' => db'
  | none => db

/-! ## updateUserPoints (webhook route, lines 46-62) -/

/-- The DO UPDATE arm of the points upsert:
`total_points = user_points.total_points + $2, last_updated = CURRENT_TIMESTAMP`. -/
def addPointsRow (email : String) (pointsToAdd : Int) (now : Nat) (u : UserPointsRow) :
    UserPointsRow :=
  if u.email == email then
    { u with totalPoints := u.totalPoints + pointsToAdd, lastUpdated := now }
  else u

/-- The `INSERT INTO user_points ... ON CONFLICT (email) DO UPDATE SET
total_points = user_points.total_points + $2` statement. -/
def userPointsUpsertSql (db : DBState) (now : Nat) (email : String) (pointsToAdd : Int) :
    Option DBState :=
  if !db.storageUp then none
  else if db.points.any (fun u => u.email == email) then
    some { db with points := db.points.map (addPointsRow email pointsToAdd now) }
  else
    some { db with points := db.points ++ [{ email := email, totalPoints := pointsToAdd, lastUpdated := now }] }

/-- `updateUserPoints`: runs the upsert and catches any database error
(the catch block only logs; the error is swallowed). -/
def updateUserPoints (db : DBState) (now : Nat) (email : String) (pointsToAdd : Int) : DBState :=
  match userPointsUpsertSql db now email pointsToAdd with
  | some db' => db'
  | none => db

/-! ## Stripe event payloads (as consumed by the webhook route) -/

structure SessionMetadata where
  email : Option String
  productId : Option String
  sellerId : Option String
  points : Option String
deriving DecidableEq

structure CustomerDetails where
  email : Option String
deriving DecidableEq

structure CheckoutSession where
  id : String
  metadata : Option SessionMetadata
  customer_details : Option CustomerDetails
  payment_intent : Option String
deriving DecidableEq

/-- `paymentIntent.customer`: absent/null, a bare customer id string, or an
expanded customer object carrying an optional email. -/
inductive CustomerField where
  | absent
  | id (customerId : String)
  | expanded (email : Option String)
deriving DecidableEq

structure LastPaymentError where
  message : Option String
deriving DecidableEq

structure PaymentIntent where
  id : String
  receipt_email : Option String
  customer : CustomerField
  last_payment_error : Option LastPaymentError
  /-- `latest_charge` is a charge id or an expanded charge; either way the
  handler only extracts the id, so the field is represented by that id. -/
  latest_charge : Option String
  status : String
  amount : Int
  currency : String
deriving DecidableEq

inductive StripeEvent where
  | checkoutSessionCompleted (session : CheckoutSession)
  | paymentIntentFailed (paymentIntent : PaymentIntent)
  | other (eventType : String)
deriving DecidableEq

/-! ## Webhook signature verification -/

/-- A `stripe-signature` header value.  The HMAC is modelled as a perfect MAC:
a signature is the pair of the secret it was produced with and the exact raw
body it signs (the body being represented by its parsed content). -/
structure StripeSig where
  secret : String
  payload : StripeEvent
deriving DecidableEq

/-- `stripe.webhooks.constructEvent(buf, sig, secret)`: verifies the
signature header against the raw body and the endpoint secret, returning the
parsed event on success; `none` models the thrown verification error. -/
def constructEvent (body : StripeEvent) (sig : StripeSig) (secret : String) :
    Option StripeEvent :=
  if sig.secret = secret ∧ sig.payload = body then some body else none

/-! ## Webhook handler (src/app/api/webhooks/stripe/route.ts, POST) -/

structure WebhookResponse where
  status : Nat
  received : Bool
deriving DecidableEq

/-- `session.metadata?.email || session.customer_details?.email` -/
def sessionEmail (s : CheckoutSession) : Option String :=
  jsOr (s.metadata.bind (fun m => m.email)) (s.customer_details.bind (fun c => c.email))

/-- `session.metadata?.productId` -/
def sessionProductId (s : CheckoutSession) : Option String :=
  s.metadata.bind (fun m => m.productId)

/-- `parseInt(session.metadata?.sellerId || '0', 10)` -/
def sessionSellerId (s : CheckoutSession) : Option Int :=
  parseIntJS (jsOrStr (s.metadata.bind (fun m => m.sellerId)) "0")

/-- The `checkout.session.completed` arm of the switch (lines 139-199). -/
def handleCheckoutCompleted (db : DBState) (now : Nat) (session : CheckoutSession) :
    WebhookResponse × DBState :=
  let email := sessionEmail session
  let productId := sessionProductId session
  let sellerId := sessionSellerId session
  if !(jsTruthy email) || !(jsTruthy productId) then
    let db' := recordPurchaseEvent db now
      { email := jsOrStr email "unknown@example.com",
        stripeSessionId := session.id,
        status := "ERROR_MISSING_METADATA",
        productId := productId,
        seller_id := sellerId,
        pointsAwarded := none,
        details := some (.missingMetadata "Email or productId not found in session metadata") }
    ({ status := 200, received := true }, db')
  else
    let emailS := email.getD ""
    let productIdS := productId.getD ""
    match getProductById productIdS with
    | none =>
      let db' := recordPurchaseEvent db now
        { email := emailS,
          stripeSessionId := session.id,
          status := "ERROR_PRODUCT_NOT_FOUND",
          productId := productId,
          seller_id := sellerId,
          pointsAwarded := none,
          details := some (.productNotFound ("Product ID " ++ productIdS ++ " not found.")) }
      ({ status := 200, received := true }, db')
    | some product =>
      let pointsToAward := product.points
      let db1 := recordPurchaseEvent db now
        { email := emailS,
          productId := productId,
          seller_id := sellerId,
          stripeSessionId := session.id,
          status := "PAYMENT_SUCCESS",
          pointsAwarded := some pointsToAward,
          details := some (.success product.name product.price session.payment_intent) }
      let db2 := if pointsToAward > 0 then updateUserPoints db1 now emailS pointsToAward else db1
      ({ status := 200, received := true }, db2)

/-- Best-effort email resolution for a failed payment intent (lines 207-218):
`receipt_email` if truthy; a bare customer id only gets logged; an expanded
customer contributes its email when truthy. -/
def failedPiEmail (pi : PaymentIntent) : String :=
  if jsTruthy pi.receipt_email then pi.receipt_email.getD "unknown@example.com"
  else
    match pi.customer with
    | .id _ => "unknown@example.com"
    | .expanded e => if jsTruthy e then e.getD "unknown@example.com" else "unknown@example.com"
    | .absent => "unknown@example.com"

/-- The `payment_intent.payment_failed` arm of the switch (lines 201-235).
Note: the call passes no `seller_id`, so the bound parameter is SQL NULL. -/
def handlePaymentFailed (db : DBState) (now : Nat) (pi : PaymentIntent) :
    WebhookResponse × DBState :=
  let db' := recordPurchaseEvent db now
    { email := failedPiEmail pi,
      productId := none,
      seller_id := none,
      stripeSessionId := pi.id,
      status := "PAYMENT_FAILED",
      pointsAwarded := none,
      details := some (.failed (pi.last_payment_error.bind (fun e => e.message)) pi.id
        pi.latest_charge pi.status pi.amount pi.currency) }
  ({ status := 200, received := true }, db')

/-- The `switch (event.type)` over the verified event (lines 137-247). -/
def handleEvent (db : DBState) (now : Nat) (event : StripeEvent) :
    WebhookResponse × DBState :=
  match event with
  | .checkoutSessionCompleted session => handleCheckoutCompleted db now session
  | .paymentIntentFailed pi => handlePaymentFailed db now pi
  | .other _ => ({ status := 200, received := true }, db)

/-- The webhook `POST` handler.  `webhookSecret` is
`process.env.STRIPE_WEBHOOK_SECRET` (possibly unset or empty), `sig` the
`stripe-signature` header (possibly missing), `body` the raw request body.
Order as in the source: missing header → 400; `!webhookSecret` → 500;
signature verification failure → 400; then the event switch. -/
def webhookPOST (webhookSecret : Option String) (db : DBState) (now : Nat)
    (body : StripeEvent) (sig : Option StripeSig) : WebhookResponse × DBState :=
  match sig with
  | none => ({ status := 400, received := false }, db)
  | some s =>
    if !(jsTruthy webhookSecret) then ({ status := 500, received := false }, db)
    else
      match constructEvent body s (webhookSecret.getD "") with
      | none => ({ status := 400, received := false }, db)
      | some event => handleEvent db now event

/-- Processing a sequence of provider notifications, each delivered with a
correctly signed header (the shape every verified notification has). -/
def processSequence (secret : String) (now : Nat) (db : DBState) :
    List StripeEvent → DBState
  | [] => db
  | e :: rest =>
    processSequence secret now (webhookPOST (some secret) db now e (some ⟨secret, e⟩)).2 rest

/-! ## Checkout-session creation (src/app/api/checkout_sessions/route.ts, POST) -/

def hexDigitChar (n : Nat) : Char :=
  if n < 10 then Char.ofNat (48 + n) else Char.ofNat (55 + n)

/-- JS `encodeURIComponent`: characters outside `A-Z a-z 0-9 - _ . ! ~ * ' ( )`
are percent-encoded as their UTF-8 bytes. -/
def isUriUnreserved (c : Char) : Bool :=
  c.isAlphanum || c == Char.ofNat 45 || c == Char.ofNat 95 || c == Char.ofNat 46 ||
    c == Char.ofNat 33 || c == Char.ofNat 126 || c == Char.ofNat 42 ||
    c == Char.ofNat 39 || c == Char.ofNat 40 || c == Char.ofNat 41

def encodeURIComponent (s : String) : String :=
  String.join (s.toList.map (fun c =>
    if isUriUnreserved c then String.singleton c
    else String.join (c.toString.toUTF8.toList.map (fun b =>
      "%" ++ String.singleton (hexDigitChar (b.toNat / 16)) ++
        String.singleton (hexDigitChar (b.toNat % 16))))))

/-- The request body of `/api/checkout_sessions`. -/
structure CheckoutRequest where
  email : Option String
  productId : Option String
deriving DecidableEq

/-- The single line item sent to `stripe.checkout.sessions.create`. -/
structure LineItem where
  currency : String
  product_name : String
  description : String
  unit_amount : Int
  quantity : Nat
deriving DecidableEq

/-- The outbound payment-session request handed to the payment provider. -/
structure CheckoutSessionParams where
  payment_method_types : List String
  line_item : LineItem
  mode : String
  success_url : String
  cancel_url : String
  customer_email : String
  metadata : List (String × String)
deriving DecidableEq

/-- The response of the checkout route, paired (in `checkoutSessionsPOST`)
with the outbound request when one was issued. -/
inductive CheckoutResponse where
  | ok (sessionId : String)
  | err (status : Nat) (message : String)
deriving DecidableEq

/-- The `POST` handler of `/api/checkout_sessions`.  `appUrl` is
`process.env.NEXT_PUBLIC_APP_URL`; `sessionId` the id the provider returns
for the created session.  The second component is the outbound
`stripe.checkout.sessions.create` argument, `none` when the request is
rejected before the outbound call. -/
def checkoutSessionsPOST (appUrl : Option String) (sessionId : String)
    (req : CheckoutRequest) : CheckoutResponse × Option CheckoutSessionParams :=
  if !(jsTruthy req.email) || !(jsTruthy req.productId) then
    (.err 400 "Email and Product ID are required", none)
  else
    let email := req.email.getD ""
    let productId := req.productId.getD ""
    match getProductById productId with
    | none => (.err 404 "Invalid Product ID", none)
    | some product =>
      let appUrlS := jsOrStr appUrl "http://localhost:3000"
      let params : CheckoutSessionParams :=
        { payment_method_types := ["card"],
          line_item :=
            { currency := "eur",
              product_name := product.name,
              description := "Purchase of " ++ product.name ++ " for " ++
                toString product.points ++ " points",
              unit_amount := product.price * 100,
              quantity := 1 },
          mode := "payment",
          success_url := appUrlS ++ "/checkout?payment_success=true&session_id=\x7bCHECKOUT_SESSION_ID\x7d&email=" ++
            encodeURIComponent email ++ "&productId=" ++ productId,
          cancel_url := appUrlS ++ "/checkout?payment_cancelled=true&email=" ++
            encodeURIComponent email ++ "&productId=" ++ productId ++
            "&session_id=\x7bCHECKOUT_SESSION_ID\x7d",
          customer_email := email,
          metadata :=
            [("email", email), ("productId", productId), ("points", toString product.points)] }
      (.ok sessionId, some params)

/-! ## Cancellation logging (src/app/api/log-cancellation/route.ts, POST) -/

structure CancellationRequest where
  email : Option String
  productId : Option String
  stripeSessionId : Option String
deriving DecidableEq

/-- The plain `INSERT INTO purchase_events (email, product_id, points_awarded,
stripe_session_id, status, timestamp, details) VALUES (...)` of the
cancellation route: no ON CONFLICT clause, so an existing row for the same
`stripe_session_id` raises a unique violation; `seller_id` is omitted from
the column list, so its DEFAULT 0 applies. -/
def cancellationInsertSql (db : DBState) (now : Nat) (email productId stripeSessionId : String)
    (product : Product) : Option DBState :=
  if !db.storageUp then none
  else if hasKey db stripeSessionId then none
  else
    some { db with
      events := db.events ++
        [{ id := db.nextId, timestamp := now, email := email, productId := some productId,
           stripeSessionId := stripeSessionId, status := "cancelled_by_user", sellerId := 0,
           pointsAwarded := some 0,
           details := some (.cancelled product.name product.price "User clicked cancel on Stripe page") }],
      nextId := db.nextId + 1 }

/-- The `POST` handler of `/api/log-cancellation`.  `expectedSecret` is
`process.env.NEXT_PUBLIC_ADMIN_API_SECRET`, `providedSecret` the
`X-Admin-API-Secret` header.  The response is its HTTP status code. -/
def logCancellationPOST (expectedSecret providedSecret : Option String)
    (db : DBState) (now : Nat) (req : CancellationRequest) : Nat × DBState :=
  if !(jsTruthy expectedSecret) || !(providedSecret == expectedSecret) then (401, db)
  else if !(jsTruthy req.email) || !(jsTruthy req.productId) || !(jsTruthy req.stripeSessionId) then
    (400, db)
  else
    match getProductById (req.productId.getD "") with
    | none => (400, db)
    | some product =>
      match cancellationInsertSql db now (req.email.getD "") (req.productId.getD "")
          (req.stripeSessionId.getD "") product with
      | some db' => (200, db')
      | none => (500, db)

/-! ## Observations over the database (spec §3) -/

/-- The `totalPoints` balance of a customer: the `user_points` row when one
exists, otherwise 0 (no row has ever been created). -/
def totalPointsOf (db : DBState) (c : String) : Int :=
  match db.points.find? (fun u => u.email == c) with
  | some u => u.totalPoints
  | none => 0

/-- A customer's `PAYMENT_SUCCESS` rows of `purchase_events`. -/
def successRows (db : DBState) (c : String) : List PurchaseRow :=
  db.events.filter (fun r => r.email == c && r.status == "PAYMENT_SUCCESS")

/-- Sum of `pointsAwarded` over a customer's `PAYMENT_SUCCESS` rows
(SQL SUM skips NULLs, modelled by `Option.getD 0`). -/
def successSum (db : DBState) (c : String) : Int :=
  ((successRows db c).map (fun r => r.pointsAwarded.getD 0)).sum

/-- The idempotency key a notification is recorded under: the checkout-session
id for completed checkouts, the payment-intent id for failed payments. -/
def notifKey : StripeEvent → Option String
  | .checkoutSessionCompleted s => some s.id
  | .paymentIntentFailed pi => some pi.id
  | .other _ => none

def eventKeys (l : List StripeEvent) : List String :=
  l.filterMap notifKey

/-- Whether the `sellerId` metadata value of a completed-checkout notification
parses to an integer (an unparsable value yields `NaN`, which poisons the SQL
insert of the event row). -/
def sellerParses : StripeEvent → Bool
  | .checkoutSessionCompleted s => (sessionSellerId s).isSome
  | _ => true

/-! # Supporting lemmas -/
-- ## Basic facts about the storage operations

theorem record_storage_down (db : DBState) (now : Nat) (d : RecordData)
    (h : db.storageUp = false) : recordPurchaseEvent db now d = db := by
  unfold recordPurchaseEvent purchaseUpsertSql
  rw [h]
  simp

theorem record_seller_none (db : DBState) (now : Nat) (d : RecordData)
    (h : d.seller_id = none) : recordPurchaseEvent db now d = db := by
  unfold recordPurchaseEvent purchaseUpsertSql
  rw [h]
  cases hb : db.storageUp <;> simp

theorem record_up_overwrite (db : DBState) (now : Nat) (d : RecordData) (sv : Int)
    (hup : db.storageUp = true) (hs : d.seller_id = some sv)
    (hk : hasKey db d.stripeSessionId = true) :
    recordPurchaseEvent db now d =
      { db with events := db.events.map (fun r =>
          if r.stripeSessionId == d.stripeSessionId then overwriteRow d sv r else r) } := by
  unfold recordPurchaseEvent purchaseUpsertSql
  rw [hup, hs, hk]
  simp

theorem record_up_insert (db : DBState) (now : Nat) (d : RecordData) (sv : Int)
    (hup : db.storageUp = true) (hs : d.seller_id = some sv)
    (hk : hasKey db d.stripeSessionId = false) :
    recordPurchaseEvent db now d =
      { db with events := db.events ++ [insertRow db now d sv], nextId := db.nextId + 1 } := by
  unfold recordPurchaseEvent purchaseUpsertSql
  rw [hup, hs, hk]
  simp

theorem record_points_eq (db : DBState) (now : Nat) (d : RecordData) :
    (recordPurchaseEvent db now d).points = db.points := by
  unfold recordPurchaseEvent purchaseUpsertSql
  cases hb : db.storageUp
  · simp [hb]
  · cases hs : d.seller_id
    · simp [hb, hs]
    · cases hk : hasKey db d.stripeSessionId <;> simp [hb, hs, hk]

theorem record_storageUp_eq (db : DBState) (now : Nat) (d : RecordData) :
    (recordPurchaseEvent db now d).storageUp = db.storageUp := by
  unfold recordPurchaseEvent purchaseUpsertSql
  cases hb : db.storageUp
  · simp [hb]
  · cases hs : d.seller_id
    · simp [hb, hs]
    · cases hk : hasKey db d.stripeSessionId <;> simp [hb, hs, hk]

theorem update_storage_down (db : DBState) (now : Nat) (email : String) (pts : Int)
    (h : db.storageUp = false) : updateUserPoints db now email pts = db := by
  unfold updateUserPoints userPointsUpsertSql
  rw [h]
  simp

theorem update_events_eq (db : DBState) (now : Nat) (email : String) (pts : Int) :
    (updateUserPoints db now email pts).events = db.events := by
  unfold updateUserPoints userPointsUpsertSql
  cases hb : db.storageUp
  · simp [hb]
  · cases hx : db.points.any (fun u => u.email == email) <;> simp [hb, hx]

theorem addPointsRow_email (email : String) (pts : Int) (now : Nat) (u : UserPointsRow) :
    (addPointsRow email pts now u).email = u.email := by
  unfold addPointsRow
  split <;> rfl

theorem find?_map_addPointsRow (l : List UserPointsRow) (email : String) (pts : Int)
    (now : Nat) (c : String) :
    (l.map (addPointsRow email pts now)).find? (fun u => u.email == c)
      = (l.find? (fun u => u.email == c)).map (addPointsRow email pts now) := by
  induction l with
  | nil => rfl
  | cons u t ih =>
    simp only [List.map_cons, List.find?_cons, addPointsRow_email]
    cases hu : u.email == c
    · simpa [hu] using ih
    · simp [hu]

theorem update_up_any_true (db : DBState) (now : Nat) (email : String) (pts : Int)
    (hup : db.storageUp = true) (hx : db.points.any (fun u => u.email == email) = true) :
    updateUserPoints db now email pts
      = { db with points := db.points.map (addPointsRow email pts now) } := by
  unfold updateUserPoints userPointsUpsertSql
  rw [hup, hx]
  simp

theorem update_up_any_false (db : DBState) (now : Nat) (email : String) (pts : Int)
    (hup : db.storageUp = true) (hx : db.points.any (fun u => u.email == email) = false) :
    updateUserPoints db now email pts
      = { db with points := db.points ++ [{ email := email, totalPoints := pts, lastUpdated := now }] } := by
  unfold updateUserPoints userPointsUpsertSql
  rw [hup, hx]
  simp

theorem totalPointsOf_update_up (db : DBState) (now : Nat) (email : String) (pts : Int)
    (hup : db.storageUp = true) (c : String) :
    totalPointsOf (updateUserPoints db now email pts) c
      = totalPointsOf db c + (if c = email then pts else 0) := by
  cases hx : db.points.any (fun u => u.email == email)
  · rw [update_up_any_false db now email pts hup hx]
    unfold totalPointsOf
    simp only [List.find?_append]
    cases hf : db.points.find? (fun u => u.email == c)
    · cases he : (email == c)
      · have hne : ¬ c = email := fun h => by
          rw [h] at he
          simp at he
        simp [hf, List.find?, he, hne]
      · have heq : c = email := (beq_iff_eq.mp he).symm
        simp [hf, List.find?, he, heq]
    · rename_i u
      have hmem : u ∈ db.points := List.mem_of_find?_eq_some hf
      have hpred : (u.email == c) = true := by simpa using List.find?_some hf
      have hne : ¬ c = email := by
        intro h
        have : db.points.any (fun v => v.email == email) = true :=
          List.any_eq_true.mpr ⟨u, hmem, by rw [← h]; simpa using hpred⟩
        rw [hx] at this
        exact Bool.false_ne_true this
      simp [hf, hne]
  · rw [update_up_any_true db now email pts hup hx]
    unfold totalPointsOf
    rw [find?_map_addPointsRow]
    cases hf : db.points.find? (fun u => u.email == c)
    · have hne : ¬ c = email := by
        intro h
        rcases List.any_eq_true.mp hx with ⟨u, hmem, hpred⟩
        have := List.find?_eq_none.mp hf u hmem
        rw [h] at this
        exact this (by simpa using hpred)
      simp [hne]
    · rename_i u
      have hpred : (u.email == c) = true := by simpa using List.find?_some hf
      have hueq : u.email = c := beq_iff_eq.mp hpred
      by_cases hce : c = email
      · have hbt : (u.email == email) = true := beq_iff_eq.mpr (by rw [hueq, hce])
        simp [addPointsRow, hbt, hce]
      · have hbf : (u.email == email) = false := by
          apply beq_eq_false_iff_ne.mpr
          rw [hueq]
          exact hce
        simp [addPointsRow, hbf, hce]

-- ## successSum facts

theorem successSum_events_eq (db db' : DBState) (h : db'.events = db.events) (c : String) :
    successSum db' c = successSum db c := by
  unfold successSum successRows
  rw [h]

theorem successSum_append (db db' : DBState) (r : PurchaseRow)
    (h : db'.events = db.events ++ [r]) (c : String) :
    successSum db' c = successSum db c +
      (if r.email == c && r.status == "PAYMENT_SUCCESS" then r.pointsAwarded.getD 0 else 0) := by
  unfold successSum successRows
  rw [h, List.filter_append, List.map_append, List.sum_append]
  cases hc : (r.email == c && r.status == "PAYMENT_SUCCESS") <;> simp [List.filter, hc]

-- ## membership and key facts about recordPurchaseEvent

theorem record_mem (db : DBState) (now : Nat) (d : RecordData) (r : PurchaseRow)
    (hr : r ∈ (recordPurchaseEvent db now d).events) :
    r ∈ db.events ∨ (r.status = d.status ∧ r.pointsAwarded = d.pointsAwarded) := by
  cases hb : db.storageUp
  · rw [record_storage_down db now d hb] at hr
    exact Or.inl hr
  · cases hs : d.seller_id
    · rw [record_seller_none db now d hs] at hr
      exact Or.inl hr
    · rename_i sv
      cases hk : hasKey db d.stripeSessionId
      · rw [record_up_insert db now d sv hb hs hk] at hr
        simp only [List.mem_append, List.mem_singleton] at hr
        rcases hr with h | h
        · exact Or.inl h
        · exact Or.inr (by rw [h]; exact ⟨rfl, rfl⟩)
      · rw [record_up_overwrite db now d sv hb hs hk] at hr
        simp only [List.mem_map] at hr
        rcases hr with ⟨x, hx, hfx⟩
        by_cases hkey : (x.stripeSessionId == d.stripeSessionId) = true
        · rw [if_pos hkey] at hfx
          exact Or.inr (by rw [← hfx]; exact ⟨rfl, rfl⟩)
        · rw [if_neg hkey] at hfx
          exact Or.inl (hfx ▸ hx)

theorem overwrite_key (d : RecordData) (sv : Int) (r : PurchaseRow) :
    (if r.stripeSessionId == d.stripeSessionId then overwriteRow d sv r else r).stripeSessionId
      = r.stripeSessionId := by
  split <;> rfl

theorem any_key_map_overwrite (es : List PurchaseRow) (d : RecordData) (sv : Int) (k : String) :
    ((es.map (fun r => if r.stripeSessionId == d.stripeSessionId then overwriteRow d sv r else r)).any
      (fun r => r.stripeSessionId == k)) = es.any (fun r => r.stripeSessionId == k) := by
  rw [List.any_map]
  apply congrArg
  funext x
  simp only [Function.comp]
  rw [overwrite_key]

theorem hasKey_record (db : DBState) (now : Nat) (d : RecordData) (k : String)
    (h : hasKey (recordPurchaseEvent db now d) k = true) :
    hasKey db k = true ∨ k = d.stripeSessionId := by
  cases hb : db.storageUp
  · rw [record_storage_down db now d hb] at h
    exact Or.inl h
  · cases hs : d.seller_id
    · rw [record_seller_none db now d hs] at h
      exact Or.inl h
    · rename_i sv
      cases hk : hasKey db d.stripeSessionId
      · rw [record_up_insert db now d sv hb hs hk] at h
        unfold hasKey at h
        simp only [List.any_append] at h
        rcases Bool.or_eq_true_iff.mp h with h1 | h1
        · exact Or.inl h1
        · simp only [List.any_cons, List.any_nil, Bool.or_false] at h1
          unfold insertRow at h1
          exact Or.inr (beq_iff_eq.mp h1).symm
      · rw [record_up_overwrite db now d sv hb hs hk] at h
        unfold hasKey at h
        rw [any_key_map_overwrite] at h
        exact Or.inl h

theorem hasKey_record_self (db : DBState) (now : Nat) (d : RecordData) (sv : Int)
    (hup : db.storageUp = true) (hs : d.seller_id = some sv) :
    hasKey (recordPurchaseEvent db now d) d.stripeSessionId = true := by
  cases hk : hasKey db d.stripeSessionId
  · rw [record_up_insert db now d sv hup hs hk]
    unfold hasKey
    simp [insertRow]
  · rw [record_up_overwrite db now d sv hup hs hk]
    unfold hasKey
    rw [any_key_map_overwrite]
    exact hk

-- ## product catalog facts

theorem getProductById_points_pos (pid : String) (p : Product)
    (h : getProductById pid = some p) : 0 < p.points := by
  have hm : p ∈ products := List.mem_of_find?_eq_some h
  simp only [products, List.mem_cons, List.not_mem_nil, or_false] at hm
  rcases hm with rfl | rfl | rfl <;> decide

-- ## webhook handler facts

theorem webhookPOST_verified (secret : String) (hs : secret ≠ "") (db : DBState)
    (now : Nat) (e : StripeEvent) :
    webhookPOST (some secret) db now e (some ⟨secret, e⟩) = handleEvent db now e := by
  unfold webhookPOST constructEvent
  have ht : jsTruthy (some secret) = true := by
    unfold jsTruthy
    simp [hs]
  rw [ht]
  simp

theorem handlePaymentFailed_db (db : DBState) (now : Nat) (pi : PaymentIntent) :
    handlePaymentFailed db now pi = ({ status := 200, received := true }, db) := by
  unfold handlePaymentFailed
  rw [record_seller_none _ _ _ rfl]

theorem handleEvent_storage_down (db : DBState) (now : Nat) (e : StripeEvent)
    (hdown : db.storageUp = false) :
    handleEvent db now e = ({ status := 200, received := true }, db) := by
  unfold handleEvent
  cases e with
  | checkoutSessionCompleted session =>
    unfold handleCheckoutCompleted
    cases hc : (!jsTruthy (sessionEmail session) || !jsTruthy (sessionProductId session))
    · simp only [hc, Bool.false_eq_true, if_false]
      cases hp : getProductById ((sessionProductId session).getD "")
      · simp only [record_storage_down db now _ hdown]
      · rename_i product
        simp only [record_storage_down db now _ hdown]
        have hd2 : updateUserPoints db now ((sessionEmail session).getD "") product.points = db :=
          update_storage_down db now _ _ hdown
        cases hpp : (product.points > 0 : Bool) <;> simp_all
    · simp only [hc, if_true]
      rw [record_storage_down db now _ hdown]
  | paymentIntentFailed pi => exact handlePaymentFailed_db db now pi
  | other t => rfl

-- ## The balance invariant

/-- Spec §3 invariant: every customer's balance equals the sum of
`pointsAwarded` over that customer's `PAYMENT_SUCCESS` rows. -/
def BalInv (db : DBState) : Prop :=
  ∀ c, totalPointsOf db c = successSum db c

theorem balInv_empty (storage : Bool) : BalInv (emptyDB storage) := fun _ => rfl

theorem hasKey_update (db : DBState) (now : Nat) (email : String) (pts : Int) (k : String) :
    hasKey (updateUserPoints db now email pts) k = hasKey db k := by
  unfold hasKey
  rw [update_events_eq]

theorem handleEvent_keys (db : DBState) (now : Nat) (e : StripeEvent) (k : String)
    (h : hasKey (handleEvent db now e).2 k = true) :
    hasKey db k = true ∨ notifKey e = some k := by
  cases e with
  | checkoutSessionCompleted session =>
    unfold handleEvent handleCheckoutCompleted at h
    simp only at h
    cases hc : (!jsTruthy (sessionEmail session) || !jsTruthy (sessionProductId session))
    · simp only [hc, Bool.false_eq_true, if_false] at h
      cases hp : getProductById ((sessionProductId session).getD "")
      · simp only [hp] at h
        rcases hasKey_record db now _ k h with h1 | h1
        · exact Or.inl h1
        · exact Or.inr (by rw [h1]; rfl)
      · rename_i product
        simp only [hp] at h
        by_cases hpp : product.points > 0
        · simp only [if_pos hpp, hasKey_update] at h
          rcases hasKey_record db now _ k h with h1 | h1
          · exact Or.inl h1
          · exact Or.inr (by rw [h1]; rfl)
        · simp only [if_neg hpp] at h
          rcases hasKey_record db now _ k h with h1 | h1
          · exact Or.inl h1
          · exact Or.inr (by rw [h1]; rfl)
    · simp only [hc, if_true] at h
      rcases hasKey_record db now _ k h with h1 | h1
      · exact Or.inl h1
      · exact Or.inr (by rw [h1]; rfl)
  | paymentIntentFailed pi =>
    replace h : hasKey (handlePaymentFailed db now pi).2 k = true := h
    rw [handlePaymentFailed_db] at h
    exact Or.inl h
  | other t => exact Or.inl h

theorem balInv_record_fresh_nonsuccess (db : DBState) (now : Nat) (d : RecordData)
    (hkf : hasKey db d.stripeSessionId = false)
    (hst : (d.status == "PAYMENT_SUCCESS") = false)
    (hinv : BalInv db) : BalInv (recordPurchaseEvent db now d) := by
  intro c
  cases hb : db.storageUp
  · rw [record_storage_down db now d hb]
    exact hinv c
  · cases hs : d.seller_id
    · rw [record_seller_none db now d hs]
      exact hinv c
    · rename_i sv
      rw [record_up_insert db now d sv hb hs hkf]
      have hts : totalPointsOf
          { db with events := db.events ++ [insertRow db now d sv], nextId := db.nextId + 1 } c
          = totalPointsOf db c := rfl
      rw [hts,
        successSum_append db
          { db with events := db.events ++ [insertRow db now d sv], nextId := db.nextId + 1 }
          (insertRow db now d sv) rfl c]
      have hcond : ((insertRow db now d sv).email == c
          && ((insertRow db now d sv).status == "PAYMENT_SUCCESS")) = false := by
        have h2 : ((insertRow db now d sv).status == "PAYMENT_SUCCESS") = false := hst
        rw [h2, Bool.and_false]
      rw [hcond]
      simp [hinv c]

theorem balInv_append_success_update (db : DBState) (now : Nat) (r : PurchaseRow) (pts : Int)
    (hb : db.storageUp = true)
    (hst : r.status = "PAYMENT_SUCCESS") (hpa : r.pointsAwarded = some pts)
    (hinv : BalInv db) :
    BalInv (updateUserPoints { db with events := db.events ++ [r], nextId := db.nextId + 1 }
      now r.email pts) := by
  intro c
  have hb1 : ({ db with events := db.events ++ [r], nextId := db.nextId + 1 } : DBState).storageUp
      = true := hb
  rw [totalPointsOf_update_up _ now _ _ hb1 c]
  rw [successSum_events_eq _ _ (update_events_eq _ _ _ _) c]
  rw [successSum_append db _ r rfl c]
  have hts : totalPointsOf { db with events := db.events ++ [r], nextId := db.nextId + 1 } c
      = totalPointsOf db c := rfl
  rw [hts, hinv c]
  have hcond : (r.email == c && (r.status == "PAYMENT_SUCCESS")) = (r.email == c) := by
    rw [hst]
    simp
  rw [hcond, hpa]
  by_cases hce : c = r.email
  · rw [if_pos hce, if_pos (beq_iff_eq.mpr hce.symm)]
    rfl
  · rw [if_neg hce, if_neg (fun hb2 => hce (beq_iff_eq.mp hb2).symm)]

theorem handleEvent_inv (db : DBState) (now : Nat) (e : StripeEvent)
    (hsell : sellerParses e = true)
    (hfresh : ∀ k, notifKey e = some k → hasKey db k = false)
    (hinv : BalInv db) : BalInv (handleEvent db now e).2 := by
  cases e with
  | other t => exact hinv
  | paymentIntentFailed pi =>
    have hdb : (handleEvent db now (StripeEvent.paymentIntentFailed pi)).2 = db := by
      show (handlePaymentFailed db now pi).2 = db
      rw [handlePaymentFailed_db]
    rw [hdb]
    exact hinv
  | checkoutSessionCompleted session =>
    have hkf : hasKey db session.id = false := hfresh session.id rfl
    rcases Option.isSome_iff_exists.mp (show (sessionSellerId session).isSome = true from hsell)
      with ⟨sv, hsv⟩
    show BalInv (handleCheckoutCompleted db now session).2
    unfold handleCheckoutCompleted
    cases hc : (!jsTruthy (sessionEmail session) || !jsTruthy (sessionProductId session))
    · simp only [hc, Bool.false_eq_true, if_false]
      cases hp : getProductById ((sessionProductId session).getD "")
      · simp only [hp]
        exact balInv_record_fresh_nonsuccess db now _ hkf rfl hinv
      · rename_i product
        simp only [hp]
        have hpos : (0 : Int) < product.points := getProductById_points_pos _ _ hp
        simp only [gt_iff_lt, if_pos hpos]
        cases hb : db.storageUp
        · intro c
          rw [record_storage_down db now _ hb, update_storage_down db now _ _ hb]
          exact hinv c
        · rw [record_up_insert db now _ sv hb hsv hkf]
          exact balInv_append_success_update db now _ product.points hb rfl rfl hinv
    · simp only [hc, if_true]
      exact balInv_record_fresh_nonsuccess db now _ hkf rfl hinv

theorem eventKeys_cons_none (e : StripeEvent) (rest : List StripeEvent)
    (h : notifKey e = none) : eventKeys (e :: rest) = eventKeys rest := by
  unfold eventKeys
  rw [List.filterMap_cons, h]

theorem eventKeys_cons_some (e : StripeEvent) (rest : List StripeEvent) (k : String)
    (h : notifKey e = some k) : eventKeys (e :: rest) = k :: eventKeys rest := by
  unfold eventKeys
  rw [List.filterMap_cons, h]

theorem mem_eventKeys_of_tail (e : StripeEvent) (rest : List StripeEvent) (k : String)
    (hk : k ∈ eventKeys rest) : k ∈ eventKeys (e :: rest) := by
  cases hne : notifKey e
  · rw [eventKeys_cons_none e rest hne]
    exact hk
  · rw [eventKeys_cons_some e rest _ hne]
    exact List.mem_cons_of_mem _ hk

theorem processSequence_inv (secret : String) (hs : secret ≠ "") (now : Nat)
    (l : List StripeEvent) : ∀ (db : DBState),
      (eventKeys l).Nodup →
      (∀ e ∈ l, sellerParses e = true) →
      (∀ k ∈ eventKeys l, hasKey db k = false) →
      BalInv db → BalInv (processSequence secret now db l) := by
  induction l with
  | nil =>
    intro db _ _ _ hinv
    exact hinv
  | cons e rest ih =>
    intro db hnd hsell hkeys hinv
    unfold processSequence
    rw [webhookPOST_verified secret hs db now e]
    have hfresh : ∀ k, notifKey e = some k → hasKey db k = false := by
      intro k hk
      apply hkeys
      rw [eventKeys_cons_some e rest k hk]
      exact List.mem_cons_self _ _
    apply ih
    · cases hne : notifKey e
      · rw [eventKeys_cons_none e rest hne] at hnd
        exact hnd
      · rw [eventKeys_cons_some e rest _ hne] at hnd
        exact hnd.of_cons
    · intro e2 he2
      exact hsell e2 (List.mem_cons_of_mem _ he2)
    · intro k hk
      cases hh : hasKey (handleEvent db now e).2 k
      · rfl
      · exfalso
        rcases handleEvent_keys db now e k hh with h1 | h1
        · have h2 : hasKey db k = false := hkeys k (mem_eventKeys_of_tail e rest k hk)
          rw [h1] at h2
          simp at h2
        · rw [eventKeys_cons_some e rest k h1] at hnd
          exact (List.nodup_cons.mp hnd).1 hk
    · exact handleEvent_inv db now e (hsell e (List.mem_cons_self _ _)) hfresh hinv

/-! # Claims -/

/-! ## C1 -/

/-- The duplicated completed-checkout notification of C1's failing input:
session `cs_1` for `prod_35euro` (20 points) bought by `user@example.com`. -/
def c1Session : CheckoutSession :=
  { id := "cs_1",
    metadata := some { email := some "user@example.com", productId := some "prod_35euro",
                       sellerId := none, points := none },
    customer_details := none,
    payment_intent := some "pi_c1" }

def c1Db : DBState :=
  processSequence "whsec_c1" 0 (emptyDB true)
    [.checkoutSessionCompleted c1Session, .checkoutSessionCompleted c1Session]

/-- C1: delivering the same completed-checkout notification N times should
increment the balance by exactly one product's point value in total and leave
one Event Store row.  On the code, two deliveries of the `cs_1` notification
for the 20-point product do leave exactly one row, but the customer's balance
ends at 40, not 20: `updateUserPoints` adds the points on every delivery, with
no transition check gating the increment. -/
theorem c1_duplicate_success_double_award :
    (c1Db.events.filter (fun r => r.stripeSessionId == "cs_1")).length = 1 ∧
    (getProductById "prod_35euro").map Product.points = some 20 ∧
    totalPointsOf c1Db "user@example.com" = 40 := by
  decide

/-! ## C2 -/

/-- The duplicated success notification of C2's counterexample: session `cs_2`
for `prod_50euro` (30 points) bought by `carol@example.com`. -/
def c2Session : CheckoutSession :=
  { id := "cs_2",
    metadata := some { email := some "carol@example.com", productId := some "prod_50euro",
                       sellerId := none, points := none },
    customer_details := none,
    payment_intent := none }

def c2Db : DBState :=
  processSequence "whsec_c2" 0 (emptyDB true)
    [.checkoutSessionCompleted c2Session, .checkoutSessionCompleted c2Session]

/-- C2 (counterexample): after a duplicate delivery of the same success
notification, `carol@example.com`'s balance is 60 while the sum of
`pointsAwarded` over her `PAYMENT_SUCCESS` rows is 30 — the claimed invariant
fails on sequences containing duplicates. -/
theorem c2_duplicate_breaks_balance_invariant :
    totalPointsOf c2Db "carol@example.com" = 60 ∧
    successSum c2Db "carol@example.com" = 30 ∧
    totalPointsOf c2Db "carol@example.com" ≠ successSum c2Db "carol@example.com" := by
  decide

/-- C2 (amended): for every sequence of verified notifications whose
idempotency keys are pairwise distinct (each checkout session / payment
attempt delivered at most once) and whose completed-checkout notifications
carry a parsable sellerId, after processing from an empty database each
customer's `totalPoints` equals the sum of `pointsAwarded` over that
customer's `PAYMENT_SUCCESS` rows. -/
theorem c2_balance_invariant_distinct_keys (secret : String) (hs : secret ≠ "")
    (storage : Bool) (l : List StripeEvent) (hnd : (eventKeys l).Nodup)
    (hsell : ∀ e ∈ l, sellerParses e = true) (c : String) :
    totalPointsOf (processSequence secret 0 (emptyDB storage) l) c
      = successSum (processSequence secret 0 (emptyDB storage) l) c :=
  processSequence_inv secret hs 0 l (emptyDB storage) hnd hsell
    (fun _ _ => rfl) (balInv_empty storage) c

/-- A duplicate-free mixed sequence used to witness the amended C2: a
successful checkout, a failed payment attempt and an unrelated notification,
across two customers. -/
def c2wEvents : List StripeEvent :=
  [ .checkoutSessionCompleted
      { id := "cs_2w",
        metadata := some { email := some "dave@example.com", productId := some "prod_20euro",
                           sellerId := some "3", points := none },
        customer_details := none, payment_intent := none },
    .paymentIntentFailed
      { id := "pi_2w", receipt_email := some "erin@example.com", customer := .absent,
        last_payment_error := some { message := some "card_declined" },
        latest_charge := none, status := "requires_payment_method",
        amount := 2000, currency := "eur" },
    .other "invoice.paid" ]

theorem c2_balance_invariant_distinct_keys_witness :
    ("whsec_c2w" ≠ "") ∧ (eventKeys c2wEvents).Nodup ∧
    (∀ e ∈ c2wEvents, sellerParses e = true) ∧
    totalPointsOf (processSequence "whsec_c2w" 0 (emptyDB true) c2wEvents) "dave@example.com"
      = successSum (processSequence "whsec_c2w" 0 (emptyDB true) c2wEvents) "dave@example.com" :=
  ⟨by decide, by decide, by decide,
    c2_balance_invariant_distinct_keys "whsec_c2w" (by decide) true c2wEvents
      (by decide) (by decide) "dave@example.com"⟩

/-! ## C3 -/

/-- The verified notification of C3's counterexample: a completed checkout
arriving while the storage backend is unreachable. -/
def c3Event : StripeEvent :=
  .checkoutSessionCompleted
    { id := "cs_3",
      metadata := some { email := some "frank@example.com", productId := some "prod_20euro",
                         sellerId := none, points := none },
      customer_details := none, payment_intent := none }

/-- C3 (counterexample): with storage unavailable the ledger write fails, yet
the handler answers HTTP 200 (acknowledging the notification) instead of the
claimed retryable non-2xx error — `recordPurchaseEvent` catches and swallows
the database error. -/
theorem c3_storage_down_still_acknowledged :
    (emptyDB false).storageUp = false ∧
    (webhookPOST (some "whsec_c3") (emptyDB false) 0 c3Event (some ⟨"whsec_c3", c3Event⟩)).1
      = { status := 200, received := true } ∧
    (webhookPOST (some "whsec_c3") (emptyDB false) 0 c3Event (some ⟨"whsec_c3", c3Event⟩)).2
      = emptyDB false := by
  decide

/-- C3 (amended): for every verified notification whose ledger write fails
because storage is unavailable, the handler catches the error inside
`recordPurchaseEvent`/`updateUserPoints`, leaves the database unchanged, and
acknowledges with HTTP 200, so the provider does not redeliver. -/
theorem c3_storage_down_acknowledge_no_write (secret : String) (hs : secret ≠ "")
    (db : DBState) (hdown : db.storageUp = false) (now : Nat) (e : StripeEvent) :
    webhookPOST (some secret) db now e (some ⟨secret, e⟩)
      = ({ status := 200, received := true }, db) := by
  rw [webhookPOST_verified secret hs db now e]
  exact handleEvent_storage_down db now e hdown

theorem c3_storage_down_acknowledge_no_write_witness :
    ("whsec_c3w" ≠ "") ∧ (emptyDB false).storageUp = false ∧
    webhookPOST (some "whsec_c3w") (emptyDB false) 5 (.other "charge.refunded")
        (some ⟨"whsec_c3w", .other "charge.refunded"⟩)
      = ({ status := 200, received := true }, emptyDB false) :=
  ⟨by decide, rfl,
    c3_storage_down_acknowledge_no_write "whsec_c3w" (by decide) (emptyDB false) rfl 5
      (.other "charge.refunded")⟩

/-! ## C4 -/

/-- First failed-payment notification of C4's failing input (attempt `pi_4`,
reason `card_declined`). -/
def c4Pi1 : PaymentIntent :=
  { id := "pi_4", receipt_email := some "gina@example.com", customer := .absent,
    last_payment_error := some { message := some "card_declined" },
    latest_charge := some "ch_41", status := "requires_payment_method",
    amount := 2000, currency := "eur" }

/-- Second failed-payment notification for the same attempt, different reason. -/
def c4Pi2 : PaymentIntent :=
  { c4Pi1 with last_payment_error := some { message := some "expired_card" },
               latest_charge := some "ch_42" }

/-- C4: two failure notifications for the same payment-attempt identifier
should leave one row carrying the later reason.  On the code, NO row exists
after processing both: the failed-payment call passes no `seller_id`, the pg
driver binds SQL NULL, the NOT NULL constraint on `seller_id` makes every
such insert fail, and the error is swallowed while the handler answers 200. -/
theorem c4_failed_payment_rows_never_recorded :
    (processSequence "whsec_c4" 0 (emptyDB true)
        [.paymentIntentFailed c4Pi1, .paymentIntentFailed c4Pi2]).events = [] ∧
    (emptyDB true).storageUp = true ∧
    (webhookPOST (some "whsec_c4") (emptyDB true) 0 (.paymentIntentFailed c4Pi1)
        (some ⟨"whsec_c4", .paymentIntentFailed c4Pi1⟩)).1
      = { status := 200, received := true } := by
  decide

/-! ## C5 -/

/-- C5: a notification with a missing signature header, or whose signature
does not verify against the raw body and the shared secret (e.g. a tampered
body under an unmodified header), is rejected with a 4xx response and causes
no ledger write and no balance change; a request carrying a signature while
the shared secret is not configured fails with a 5xx without being processed. -/
theorem c5_signature_rejection (webhookSecret : Option String) (db : DBState) (now : Nat)
    (body : StripeEvent) :
    (webhookPOST webhookSecret db now body none
        = ({ status := 400, received := false }, db)) ∧
    (∀ s : StripeSig, jsTruthy webhookSecret = false →
      webhookPOST webhookSecret db now body (some s)
        = ({ status := 500, received := false }, db)) ∧
    (∀ s : StripeSig, jsTruthy webhookSecret = true →
      s.secret ≠ webhookSecret.getD "" ∨ s.payload ≠ body →
      webhookPOST webhookSecret db now body (some s)
        = ({ status := 400, received := false }, db)) := by
  refine ⟨rfl, ?_, ?_⟩
  · intro s hsec
    unfold webhookPOST
    rw [hsec]
    simp
  · intro s hsec hbad
    unfold webhookPOST constructEvent
    rw [hsec]
    simp only [Bool.not_true, Bool.false_eq_true, if_false]
    rw [if_neg (fun h => hbad.elim (fun h1 => h1 h.1) (fun h2 => h2 h.2))]

/-- A tampered-body scenario instantiating C5: the signature was produced over
a `cs_5a` checkout notification, the delivered body carries `cs_5b`. -/
def c5SignedBody : StripeEvent := .other "payment_intent.created"

def c5TamperedBody : StripeEvent := .other "payment_intent.canceled"

theorem c5_signature_rejection_witness :
    jsTruthy (some "whsec_c5") = true ∧
    c5SignedBody ≠ c5TamperedBody ∧
    webhookPOST (some "whsec_c5") (emptyDB true) 3 c5TamperedBody
        (some ⟨"whsec_c5", c5SignedBody⟩)
      = ({ status := 400, received := false }, emptyDB true) :=
  ⟨by decide, by decide,
    (c5_signature_rejection (some "whsec_c5") (emptyDB true) 3 c5TamperedBody).2.2
      ⟨"whsec_c5", c5SignedBody⟩ (by decide) (Or.inr (by decide))⟩

/-! ## C6 -/

/-- The completed-checkout notification of C6's counterexample: metadata
carries an email but no `productId`. -/
def c6Session : CheckoutSession :=
  { id := "cs_6",
    metadata := some { email := some "hana@example.com", productId := none,
                       sellerId := none, points := none },
    customer_details := none, payment_intent := none }

def c6Db : DBState :=
  (webhookPOST (some "whsec_c6") (emptyDB true) 7 (.checkoutSessionCompleted c6Session)
    (some ⟨"whsec_c6", .checkoutSessionCompleted c6Session⟩)).2

/-- C6 (counterexample): the `ERROR_MISSING_METADATA` row is written with NO
`pointsAwarded` value — the call omits the field, the driver binds SQL NULL —
whereas the claim says `pointsAwarded = 0`; the row's `points_awarded` column
is NULL, not 0. -/
theorem c6_missing_metadata_points_null :
    (c6Db.events.map (fun r => (r.status, r.pointsAwarded)))
      = [("ERROR_MISSING_METADATA", none)] ∧
    (none : Option Int) ≠ some 0 ∧
    c6Db.points = [] := by
  decide

/-- C6 (amended): every verified completed-checkout notification lacking a
customer identifier or a product identifier — provided storage is up and its
sellerId metadata parses — produces a ledger row for its session with status
`ERROR_MISSING_METADATA` and NULL (absent) `pointsAwarded`, changes no
customer's balance, and is acknowledged with HTTP 200 (terminal, no retry). -/
theorem c6_missing_metadata_row_no_balance (secret : String) (hs : secret ≠ "")
    (db : DBState) (now : Nat) (session : CheckoutSession)
    (hup : db.storageUp = true)
    (hsell : (sessionSellerId session).isSome = true)
    (hmiss : (!jsTruthy (sessionEmail session) || !jsTruthy (sessionProductId session)) = true) :
    (webhookPOST (some secret) db now (.checkoutSessionCompleted session)
        (some ⟨secret, .checkoutSessionCompleted session⟩)).1
      = { status := 200, received := true } ∧
    (webhookPOST (some secret) db now (.checkoutSessionCompleted session)
        (some ⟨secret, .checkoutSessionCompleted session⟩)).2.points = db.points ∧
    hasKey (webhookPOST (some secret) db now (.checkoutSessionCompleted session)
        (some ⟨secret, .checkoutSessionCompleted session⟩)).2 session.id = true ∧
    (∀ r ∈ (webhookPOST (some secret) db now (.checkoutSessionCompleted session)
        (some ⟨secret, .checkoutSessionCompleted session⟩)).2.events,
      r ∉ db.events → r.status = "ERROR_MISSING_METADATA" ∧ r.pointsAwarded = none) := by
  rw [webhookPOST_verified secret hs db now _]
  have hred : handleEvent db now (.checkoutSessionCompleted session)
      = ({ status := 200, received := true },
          recordPurchaseEvent db now
            { email := jsOrStr (sessionEmail session) "unknown@example.com",
              stripeSessionId := session.id,
              status := "ERROR_MISSING_METADATA",
              productId := sessionProductId session,
              seller_id := sessionSellerId session,
              pointsAwarded := none,
              details := some (.missingMetadata "Email or productId not found in session metadata") }) := by
    show handleCheckoutCompleted db now session = _
    unfold handleCheckoutCompleted
    simp only [hmiss, if_true]
  rw [hred]
  rcases Option.isSome_iff_exists.mp hsell with ⟨sv, hsv⟩
  refine ⟨rfl, record_points_eq db now _, hasKey_record_self db now _ sv hup hsv, ?_⟩
  intro r hr hnotin
  rcases record_mem db now _ r hr with h | h
  · exact absurd h hnotin
  · exact h

/-- The fully verified concrete instance for the amended C6. -/
def c6wSession : CheckoutSession :=
  { id := "cs_6w",
    metadata := some { email := none, productId := some "prod_50euro",
                       sellerId := none, points := none },
    customer_details := some { email := some "" }, payment_intent := none }

theorem c6_missing_metadata_row_no_balance_witness :
    ("whsec_c6w" ≠ "") ∧ (emptyDB true).storageUp = true ∧
    (sessionSellerId c6wSession).isSome = true ∧
    (!jsTruthy (sessionEmail c6wSession) || !jsTruthy (sessionProductId c6wSession)) = true ∧
    ((webhookPOST (some "whsec_c6w") (emptyDB true) 2 (.checkoutSessionCompleted c6wSession)
        (some ⟨"whsec_c6w", .checkoutSessionCompleted c6wSession⟩)).1
      = { status := 200, received := true } ∧
    (webhookPOST (some "whsec_c6w") (emptyDB true) 2 (.checkoutSessionCompleted c6wSession)
        (some ⟨"whsec_c6w", .checkoutSessionCompleted c6wSession⟩)).2.points = (emptyDB true).points ∧
    hasKey (webhookPOST (some "whsec_c6w") (emptyDB true) 2 (.checkoutSessionCompleted c6wSession)
        (some ⟨"whsec_c6w", .checkoutSessionCompleted c6wSession⟩)).2 c6wSession.id = true ∧
    (∀ r ∈ (webhookPOST (some "whsec_c6w") (emptyDB true) 2 (.checkoutSessionCompleted c6wSession)
        (some ⟨"whsec_c6w", .checkoutSessionCompleted c6wSession⟩)).2.events,
      r ∉ (emptyDB true).events → r.status = "ERROR_MISSING_METADATA" ∧ r.pointsAwarded = none)) :=
  ⟨by decide, rfl, by decide, by decide,
    c6_missing_metadata_row_no_balance "whsec_c6w" (by decide) (emptyDB true) 2 c6wSession
      rfl (by decide) (by decide)⟩

/-! ## C7 -/

theorem filter_key_length_one (l : List PurchaseRow) (k : String)
    (hany : l.any (fun r => r.stripeSessionId == k) = true)
    (hp : l.Pairwise (fun a b => a.stripeSessionId ≠ b.stripeSessionId)) :
    (l.filter (fun r => r.stripeSessionId == k)).length = 1 := by
  induction l with
  | nil => simp at hany
  | cons a t ih =>
    rw [List.pairwise_cons] at hp
    cases ha : (a.stripeSessionId == k)
    · rw [List.filter_cons_of_neg (by simp [ha])]
      apply ih
      · rcases List.any_eq_true.mp hany with ⟨x, hx, hpx⟩
        rcases List.mem_cons.mp hx with rfl | hx2
        · simp only [ha] at hpx
          exact absurd hpx (by simp)
        · exact List.any_eq_true.mpr ⟨x, hx2, hpx⟩
      · exact hp.2
    · rw [List.filter_cons_of_pos (by simp [ha])]
      have htail : t.filter (fun r => r.stripeSessionId == k) = [] := by
        apply List.filter_eq_nil.mpr
        intro b hb
        have hne : a.stripeSessionId ≠ b.stripeSessionId := hp.1 b hb
        have hak : a.stripeSessionId = k := beq_iff_eq.mp ha
        simp only [Bool.not_eq_true]
        apply beq_eq_false_iff_ne.mpr
        rw [← hak]
        exact fun hh => hne hh.symm
      rw [htail]
      rfl

theorem filter_key_map_overwrite (es : List PurchaseRow) (d : RecordData) (sv : Int) :
    ((es.map (fun r => if r.stripeSessionId == d.stripeSessionId then overwriteRow d sv r else r)).filter
        (fun r => r.stripeSessionId == d.stripeSessionId)).length
      = (es.filter (fun r => r.stripeSessionId == d.stripeSessionId)).length := by
  induction es with
  | nil => rfl
  | cons a t ih =>
    simp only [List.map_cons, List.filter_cons, overwrite_key]
    cases ha : (a.stripeSessionId == d.stripeSessionId)
    · simpa [ha] using ih
    · simpa [ha] using ih

/-- C7: a repeated notification for an `externalSessionId` that already has a
row overwrites only the mutable fields (status, details, productId, sellerId,
pointsAwarded) of that single row; the row's id, customerId (email) and
timestamp are unchanged, rows with other keys are untouched, and no new row
is created.  (The Pairwise hypothesis is the UNIQUE constraint on
`stripe_session_id`; the seller hypothesis makes the upsert succeed at all.) -/
theorem c7_upsert_overwrites_only_mutable_fields (db : DBState) (now : Nat) (d : RecordData)
    (sv : Int) (hup : db.storageUp = true) (hs : d.seller_id = some sv)
    (hk : hasKey db d.stripeSessionId = true)
    (huniq : db.events.Pairwise (fun a b => a.stripeSessionId ≠ b.stripeSessionId)) :
    (recordPurchaseEvent db now d).events.length = db.events.length ∧
    (recordPurchaseEvent db now d).points = db.points ∧
    (recordPurchaseEvent db now d).nextId = db.nextId ∧
    ((recordPurchaseEvent db now d).events.filter
        (fun r => r.stripeSessionId == d.stripeSessionId)).length = 1 ∧
    (∀ i r, db.events.get? i = some r →
      ∃ r', (recordPurchaseEvent db now d).events.get? i = some r' ∧
        r'.id = r.id ∧ r'.email = r.email ∧ r'.timestamp = r.timestamp ∧
        r'.stripeSessionId = r.stripeSessionId ∧
        (r.stripeSessionId ≠ d.stripeSessionId → r' = r) ∧
        (r.stripeSessionId = d.stripeSessionId →
          r'.status = d.status ∧ r'.details = d.details ∧ r'.productId = d.productId ∧
          r'.sellerId = sv ∧ r'.pointsAwarded = d.pointsAwarded)) := by
  rw [record_up_overwrite db now d sv hup hs hk]
  refine ⟨List.length_map _ _, rfl, rfl, ?_, ?_⟩
  · rw [show ({ db with events := db.events.map (fun r =>
        if r.stripeSessionId == d.stripeSessionId then overwriteRow d sv r else r) } : DBState).events
        = db.events.map (fun r =>
            if r.stripeSessionId == d.stripeSessionId then overwriteRow d sv r else r) from rfl]
    rw [filter_key_map_overwrite]
    exact filter_key_length_one db.events d.stripeSessionId hk huniq
  · intro i r hir
    refine ⟨if r.stripeSessionId == d.stripeSessionId then overwriteRow d sv r else r, ?_, ?_, ?_, ?_, ?_, ?_, ?_⟩
    · show (db.events.map (fun r =>
          if r.stripeSessionId == d.stripeSessionId then overwriteRow d sv r else r)).get? i = _
      rw [List.get?_map, hir]
      rfl
    · cases hc : (r.stripeSessionId == d.stripeSessionId) <;> simp [hc, overwriteRow]
    · cases hc : (r.stripeSessionId == d.stripeSessionId) <;> simp [hc, overwriteRow]
    · cases hc : (r.stripeSessionId == d.stripeSessionId) <;> simp [hc, overwriteRow]
    · cases hc : (r.stripeSessionId == d.stripeSessionId) <;> simp [hc, overwriteRow]
    · intro hne
      rw [if_neg (by simp [beq_eq_false_iff_ne.mpr hne])]
    · intro heq
      rw [if_pos (beq_iff_eq.mpr heq)]
      exact ⟨rfl, rfl, rfl, rfl, rfl⟩

/-- The concrete instance for C7: a database holding one `cs_7` row and one
`cs_other` row, hit by a second notification for `cs_7`. -/
def c7Db : DBState :=
  { events :=
      [ { id := 1, timestamp := 11, email := "ivan@example.com", productId := some "prod_20euro",
          stripeSessionId := "cs_7", status := "PAYMENT_SUCCESS", sellerId := 0,
          pointsAwarded := some 10, details := none },
        { id := 2, timestamp := 12, email := "judy@example.com", productId := some "prod_35euro",
          stripeSessionId := "cs_other", status := "PAYMENT_SUCCESS", sellerId := 0,
          pointsAwarded := some 20, details := none } ],
    points := [], nextId := 3, storageUp := true }

def c7Data : RecordData :=
  { email := "imposter@example.com", productId := some "prod_50euro", seller_id := some 4,
    stripeSessionId := "cs_7", status := "PAYMENT_FAILED", pointsAwarded := none,
    details := some (.failed (some "card_declined") "pi_7" none "requires_payment_method" 5000 "eur") }

theorem c7_upsert_overwrites_only_mutable_fields_witness :
    c7Db.storageUp = true ∧ c7Data.seller_id = some 4 ∧
    hasKey c7Db c7Data.stripeSessionId = true ∧
    c7Db.events.Pairwise (fun a b => a.stripeSessionId ≠ b.stripeSessionId) ∧
    ((recordPurchaseEvent c7Db 99 c7Data).events.length = c7Db.events.length ∧
      (recordPurchaseEvent c7Db 99 c7Data).points = c7Db.points ∧
      (recordPurchaseEvent c7Db 99 c7Data).nextId = c7Db.nextId ∧
      ((recordPurchaseEvent c7Db 99 c7Data).events.filter
          (fun r => r.stripeSessionId == c7Data.stripeSessionId)).length = 1 ∧
      (∀ i r, c7Db.events.get? i = some r →
        ∃ r', (recordPurchaseEvent c7Db 99 c7Data).events.get? i = some r' ∧
          r'.id = r.id ∧ r'.email = r.email ∧ r'.timestamp = r.timestamp ∧
          r'.stripeSessionId = r.stripeSessionId ∧
          (r.stripeSessionId ≠ c7Data.stripeSessionId → r' = r) ∧
          (r.stripeSessionId = c7Data.stripeSessionId →
            r'.status = c7Data.status ∧ r'.details = c7Data.details ∧
            r'.productId = c7Data.productId ∧
            r'.sellerId = 4 ∧ r'.pointsAwarded = c7Data.pointsAwarded))) :=
  ⟨rfl, rfl, by decide, by decide,
    c7_upsert_overwrites_only_mutable_fields c7Db 99 c7Data 4 rfl rfl (by decide) (by decide)⟩

/-! ## C8 -/

/-- C8 (counterexample): an accepted checkout-session creation request whose
outbound payment-session request carries NO `sellerId` entry in its metadata
bag — only `email`, `productId` and `points` are set, so the webhook's
`session.metadata?.sellerId` read later finds nothing and defaults to 0. -/
theorem c8_metadata_lacks_sellerId :
    ((checkoutSessionsPOST none "sess_8" { email := some "kim@example.com", productId := some "prod_20euro" }).1
      = .ok "sess_8") ∧
    ((checkoutSessionsPOST none "sess_8" { email := some "kim@example.com", productId := some "prod_20euro" }).2.map
      (fun p => p.metadata.lookup "sellerId")) = some none ∧
    ((checkoutSessionsPOST none "sess_8" { email := some "kim@example.com", productId := some "prod_20euro" }).2.map
      (fun p => p.metadata.map Prod.fst)) = some ["email", "productId", "points"] := by
  decide

/-- C8 (amended): every accepted checkout-session creation request produces
an outbound payment-session request carrying the product price (in cents), a
human-readable description, and a metadata bag containing the customer
identifier (`email`), the `productId` and the product's `points` — but no
`sellerId` entry. -/
theorem c8_outbound_session_contents (appUrl : Option String) (sessionId : String)
    (req : CheckoutRequest) (email productId : String) (product : Product)
    (hemail : req.email = some email) (he : (email == "") = false)
    (hpid : req.productId = some productId) (hp : (productId == "") = false)
    (hprod : getProductById productId = some product) :
    ((checkoutSessionsPOST appUrl sessionId req).1 = .ok sessionId) ∧
    (∃ params, (checkoutSessionsPOST appUrl sessionId req).2 = some params ∧
      params.line_item.unit_amount = product.price * 100 ∧
      params.line_item.description =
        "Purchase of " ++ product.name ++ " for " ++ toString product.points ++ " points" ∧
      params.metadata.lookup "email" = some email ∧
      params.metadata.lookup "productId" = some productId ∧
      params.metadata.lookup "points" = some (toString product.points) ∧
      params.metadata.lookup "sellerId" = none ∧
      params.customer_email = email) := by
  have ht1 : jsTruthy req.email = true := by
    rw [hemail]
    simp [jsTruthy, he]
  have ht2 : jsTruthy req.productId = true := by
    rw [hpid]
    simp [jsTruthy, hp]
  unfold checkoutSessionsPOST
  simp only [ht1, ht2, Bool.not_true, Bool.or_self, Bool.false_eq_true, if_false]
  rw [hemail, hpid]
  simp only [Option.getD_some]
  rw [hprod]
  exact ⟨rfl, _, rfl, rfl, rfl, rfl, rfl, rfl, rfl, rfl⟩

theorem c8_outbound_session_contents_witness :
    (({ email := some "lea@example.com", productId := some "prod_35euro" } : CheckoutRequest).email
        = some "lea@example.com") ∧
    (("lea@example.com" == "") = false) ∧
    (getProductById "prod_35euro").isSome = true ∧
    (((checkoutSessionsPOST (some "https://shop.example") "sess_8w"
        { email := some "lea@example.com", productId := some "prod_35euro" }).1 = .ok "sess_8w") ∧
      (∃ params, (checkoutSessionsPOST (some "https://shop.example") "sess_8w"
          { email := some "lea@example.com", productId := some "prod_35euro" }).2 = some params ∧
        params.line_item.unit_amount = ({ id := "prod_35euro", name := "Product 35 Euro", price := 35, points := 20 } : Product).price * 100 ∧
        params.line_item.description =
          "Purchase of " ++ ({ id := "prod_35euro", name := "Product 35 Euro", price := 35, points := 20 } : Product).name ++ " for " ++
            toString ({ id := "prod_35euro", name := "Product 35 Euro", price := 35, points := 20 } : Product).points ++ " points" ∧
        params.metadata.lookup "email" = some "lea@example.com" ∧
        params.metadata.lookup "productId" = some "prod_35euro" ∧
        params.metadata.lookup "points" = some (toString ({ id := "prod_35euro", name := "Product 35 Euro", price := 35, points := 20 } : Product).points) ∧
        params.metadata.lookup "sellerId" = none ∧
        params.customer_email = "lea@example.com")) :=
  ⟨rfl, by decide, by decide,
    c8_outbound_session_contents (some "https://shop.example") "sess_8w"
      { email := some "lea@example.com", productId := some "prod_35euro" }
      "lea@example.com" "prod_35euro"
      { id := "prod_35euro", name := "Product 35 Euro", price := 35, points := 20 }
      rfl (by decide) rfl (by decide) (by decide)⟩

/-! ## C9 -/

/-- Every status value any write path of the system can put into a
`purchase_events` row. -/
def recordedStatuses : List String :=
  ["INITIATED", "PAYMENT_SUCCESS", "PAYMENT_FAILED", "cancelled_by_user",
   "ERROR_MISSING_METADATA", "ERROR_PRODUCT_NOT_FOUND"]

theorem handleCheckout_mem (db : DBState) (now : Nat) (session : CheckoutSession)
    (r : PurchaseRow) (hr : r ∈ (handleCheckoutCompleted db now session).2.events) :
    r ∈ db.events ∨ r.status = "ERROR_MISSING_METADATA" ∨
      r.status = "ERROR_PRODUCT_NOT_FOUND" ∨ r.status = "PAYMENT_SUCCESS" := by
  unfold handleCheckoutCompleted at hr
  cases hc : (!jsTruthy (sessionEmail session) || !jsTruthy (sessionProductId session))
  · simp only [hc, Bool.false_eq_true, if_false] at hr
    cases hp : getProductById ((sessionProductId session).getD "")
    · simp only [hp] at hr
      rcases record_mem db now _ r hr with h | h
      · exact Or.inl h
      · exact Or.inr (Or.inr (Or.inl h.1))
    · rename_i product
      simp only [hp] at hr
      by_cases hpp : product.points > 0
      · simp only [if_pos hpp] at hr
        rw [update_events_eq] at hr
        rcases record_mem db now _ r hr with h | h
        · exact Or.inl h
        · exact Or.inr (Or.inr (Or.inr h.1))
      · simp only [if_neg hpp] at hr
        rcases record_mem db now _ r hr with h | h
        · exact Or.inl h
        · exact Or.inr (Or.inr (Or.inr h.1))
  · simp only [hc, if_true] at hr
    rcases record_mem db now _ r hr with h | h
    · exact Or.inl h
    · exact Or.inr (Or.inl h.1)

/-- C9 (amended): every `purchase_events` row written by any operation of the
system carries a status drawn from `recordedStatuses` — which contains
`cancelled_by_user` in place of the claimed `CANCELLED`: the cancellation
route writes the lowercase `cancelled_by_user`, a value outside the claimed
set. -/
theorem c9_statuses_from_fixed_set :
    (∀ (secret : Option String) (db : DBState) (now : Nat) (body : StripeEvent)
        (sig : Option StripeSig) (r : PurchaseRow),
        r ∈ (webhookPOST secret db now body sig).2.events →
        r ∈ db.events ∨ r.status ∈ recordedStatuses) ∧
    (∀ (es ps : Option String) (db : DBState) (now : Nat) (req : CancellationRequest)
        (r : PurchaseRow),
        r ∈ (logCancellationPOST es ps db now req).2.events →
        r ∈ db.events ∨ r.status ∈ recordedStatuses) := by
  constructor
  · intro secret db now body sig r hr
    cases sig with
    | none => exact Or.inl hr
    | some s =>
      unfold webhookPOST at hr
      cases hsec : jsTruthy secret
      · simp only [hsec, Bool.not_false, if_true] at hr
        exact Or.inl hr
      · simp only [hsec, Bool.not_true, Bool.false_eq_true, if_false] at hr
        cases hev : constructEvent body s (secret.getD "")
        · simp only [hev] at hr
          exact Or.inl hr
        · rename_i event
          simp only [hev] at hr
          cases event with
          | checkoutSessionCompleted session =>
            rcases handleCheckout_mem db now session r hr with h | h | h | h
            · exact Or.inl h
            · exact Or.inr (by rw [h]; decide)
            · exact Or.inr (by rw [h]; decide)
            · exact Or.inr (by rw [h]; decide)
          | paymentIntentFailed pi =>
            replace hr : r ∈ (handlePaymentFailed db now pi).2.events := hr
            rw [handlePaymentFailed_db] at hr
            exact Or.inl hr
          | other t => exact Or.inl hr
  · intro es ps db now req r hr
    unfold logCancellationPOST at hr
    cases hauth : (!jsTruthy es || !(ps == es))
    · simp only [hauth, Bool.false_eq_true, if_false] at hr
      cases hflds : (!jsTruthy req.email || !jsTruthy req.productId || !jsTruthy req.stripeSessionId)
      · simp only [hflds, Bool.false_eq_true, if_false] at hr
        cases hp : getProductById (req.productId.getD "")
        · simp only [hp] at hr
          exact Or.inl hr
        · rename_i product
          simp only [hp] at hr
          unfold cancellationInsertSql at hr
          cases hb : db.storageUp
          · simp only [hb, Bool.not_false, if_true] at hr
            exact Or.inl hr
          · simp only [hb, Bool.not_true, Bool.false_eq_true, if_false] at hr
            cases hk : hasKey db (req.stripeSessionId.getD "")
            · simp only [hk, Bool.false_eq_true, if_false] at hr
              simp only [List.mem_append, List.mem_singleton] at hr
              rcases hr with h | h
              · exact Or.inl h
              · refine Or.inr ?_
                rw [h]
                show ("cancelled_by_user" : String) ∈ recordedStatuses
                decide
            · simp only [hk, if_true] at hr
              exact Or.inl hr
      · simp only [hflds, if_true] at hr
        exact Or.inl hr
    · simp only [hauth, if_true] at hr
      exact Or.inl hr

theorem c9_statuses_from_fixed_set_witness :
    (({ id := 1, timestamp := 0, email := "mia@example.com", productId := some "prod_20euro",
        stripeSessionId := "cs_9w", status := "cancelled_by_user", sellerId := 0,
        pointsAwarded := some 0,
        details := some (.cancelled "Product 20 Euro" 20 "User clicked cancel on Stripe page") } : PurchaseRow)
      ∈ (logCancellationPOST (some "sec9") (some "sec9") (emptyDB true) 0
          { email := some "mia@example.com", productId := some "prod_20euro",
            stripeSessionId := some "cs_9w" }).2.events) ∧
    (({ id := 1, timestamp := 0, email := "mia@example.com", productId := some "prod_20euro",
        stripeSessionId := "cs_9w", status := "cancelled_by_user", sellerId := 0,
        pointsAwarded := some 0,
        details := some (.cancelled "Product 20 Euro" 20 "User clicked cancel on Stripe page") } : PurchaseRow)
        ∈ (emptyDB true).events ∨
      ("cancelled_by_user" : String) ∈ recordedStatuses) :=
  ⟨by decide,
    c9_statuses_from_fixed_set.2 (some "sec9") (some "sec9") (emptyDB true) 0
      { email := some "mia@example.com", productId := some "prod_20euro",
        stripeSessionId := some "cs_9w" } _ (by decide)⟩

/-- C9 (counterexample): the cancellation route writes a row whose status is
`cancelled_by_user`, which is not in the claimed set
`{INITIATED, PAYMENT_SUCCESS, PAYMENT_FAILED, CANCELLED,
ERROR_MISSING_METADATA, ERROR_PRODUCT_NOT_FOUND}`. -/
theorem c9_cancellation_status_outside_claimed_set :
    ((logCancellationPOST (some "sec9c") (some "sec9c") (emptyDB true) 0
        { email := some "noa@example.com", productId := some "prod_50euro",
          stripeSessionId := some "cs_9c" }).2.events.map (fun r => r.status))
      = ["cancelled_by_user"] ∧
    ¬ ("cancelled_by_user" : String) ∈
        ["INITIATED", "PAYMENT_SUCCESS", "PAYMENT_FAILED", "CANCELLED",
         "ERROR_MISSING_METADATA", "ERROR_PRODUCT_NOT_FOUND"] := by
  decide

/-! ## C10 -/

/-- C10's completed checkout with no email anywhere in metadata or customer
details. -/
def c10Session : CheckoutSession :=
  { id := "cs_10",
    metadata := some { email := none, productId := some "prod_20euro",
                       sellerId := none, points := none },
    customer_details := none, payment_intent := none }

/-- C10's failed payment intent with no receipt email and a bare (unexpanded)
customer id. -/
def c10Pi : PaymentIntent :=
  { id := "pi_10", receipt_email := none, customer := .id "cus_123",
    last_payment_error := some { message := some "insufficient_funds" },
    latest_charge := none, status := "requires_payment_method",
    amount := 5000, currency := "eur" }

/-- C10: for a completed checkout with no resolvable email the row IS written
with the sentinel `unknown@example.com` — but for a failed payment intent no
row is recorded at all (the NOT NULL `seller_id` column receives NULL, the
insert fails and is swallowed), contradicting the claim that the absence of a
customer identifier never prevents the failed-payment ledger write: the write
is in fact always prevented, for an unrelated reason. -/
theorem c10_sentinel_row_and_lost_failed_write :
    ((webhookPOST (some "whsec_c10") (emptyDB true) 0 (.checkoutSessionCompleted c10Session)
        (some ⟨"whsec_c10", .checkoutSessionCompleted c10Session⟩)).2.events.map
        (fun r => (r.email, r.status)))
      = [("unknown@example.com", "ERROR_MISSING_METADATA")] ∧
    failedPiEmail c10Pi = "unknown@example.com" ∧
    ((webhookPOST (some "whsec_c10") (emptyDB true) 0 (.paymentIntentFailed c10Pi)
        (some ⟨"whsec_c10", .paymentIntentFailed c10Pi⟩)).2.events = []) ∧
    ((webhookPOST (some "whsec_c10") (emptyDB true) 0 (.paymentIntentFailed c10Pi)
        (some ⟨"whsec_c10", .paymentIntentFailed c10Pi⟩)).1
      = { status := 200, received := true }) := by
  decide
